import Mathlib

/-!
Shallow embedding of `sqlalchemy_multiple_db/helper.py` (bigbag/sqlalchemy-multiple-db).

The module defines a dataclass `DBConfig`, a module constant `DEFAULT_DB_NAME = "default"`,
a dataclass `DBHelper` with two declared-but-uninitialized fields (`sessions`, `config`,
both `field(init=False)` with no default), a module-level singleton `db = DBHelper()`,
and a module-level generator `get_session`.

Python-specific behavior that this embedding models explicitly:
  * an attribute declared with `field(init=False)` and no default does not exist on a
    fresh instance; reading it raises `AttributeError` (the overridden
    `__getattribute__` prints a hint when the missing attribute is `"sessions"`
    and re-raises the same `AttributeError`);
  * `self.DEFAULT_DB_NAME` in `setup` is an attribute lookup on the instance and then
    the `DBHelper` class; `DEFAULT_DB_NAME` is defined at module level only, so this
    lookup raises `AttributeError("DEFAULT_DB_NAME")`;
  * `d[k]` on a dict raises `KeyError` when `k` is absent;
  * dicts preserve insertion order; assignment `d[k] = v` updates in place or appends;
  * the value stored by `get_status_info` at line 99,
    `full_status_info[db_name] = {"status": "OK"} if status else {"status": "FAILED"}, status`,
    is a TUPLE `(record, status)` — the conditional expression binds tighter than the
    trailing comma.  The dict is typed `Dict[str, Any]`, so values are modeled with a
    small dynamic value type `PyVal`.

External collaborators (SQLAlchemy engine/session) are opaque: a successfully created
engine + session factory is modeled as the pure record of the parameters `create_engine`
and `sessionmaker` are given.  Two collaborator behaviors matter to the claims and are
parameters of the model: `create_engine` parses the URL it receives eagerly and raises
`sqlalchemy.exc.ArgumentError` on an unparsable address (parameter `engineParses`; on
line 70 the right-hand side runs BEFORE the assignment target reads `self.sessions`),
and `session.execute("select version();")` during a health probe may raise (parameter
`execOk`).  Effects on sessions (`close`, `remove`, `logger.exception`) are recorded as
traces of the affected names.
-/

/-- Exceptions observable from `helper.py`: the builtin `AttributeError` (missing
attribute) and `KeyError` (missing dict key) are raised by the code's own attribute
and dict accesses — no custom exception class is defined anywhere in the source —
and `argumentError` models `sqlalchemy.exc.ArgumentError`, which the EXTERNAL
`create_engine` raises while eagerly parsing the URL it is handed (relevant only to
the address-error claims; elsewhere the engine is an opaque succeeding
collaborator). -/
inductive PyError where
  | attributeError (name : String)
  | keyError (key : String)
  | argumentError (dsn : String)
deriving DecidableEq, Repr

/-- A dynamic Python value, for dict slots typed `Any`. -/
inductive PyVal where
  | str (s : String)
  | bool (b : Bool)
  | dict (entries : List (String × PyVal))
  | tuple (elems : List PyVal)

/-- `DBConfig` (helper.py lines 13–24): a plain `@dataclass` value object.
The two `Callable` fields (`json_serializer`, `json_deserializer`, defaulting to
`json.dumps` / `json.loads`) are modeled by the name of the callable. -/
structure DBConfig where
  dsn : String
  pool_size : Int := 50
  pool_pre_ping : Bool := true
  echo : Bool := false
  auto_commit : Bool := false
  auto_flush : Bool := false
  expire_on_commit : Bool := false
  executemany_mode : String := ""
  json_serializer : String := "json.dumps"
  json_deserializer : String := "json.loads"
deriving DecidableEq, Repr

/-- The `@dataclass`-generated `DBConfig.__init__` called with only the required
`dsn` argument: it assigns the fields (all others to their defaults) and performs
no validation of any kind on the address string; it cannot raise. -/
def DBConfig.construct (dsn : String) : DBConfig :=
  { dsn := dsn }

/-- Module-level constant `DEFAULT_DB_NAME = "default"` (helper.py line 27).
It is a module global, NOT an attribute of the `DBHelper` class. -/
def DEFAULT_DB_NAME : String := "default"

/-- A scoped session as produced by `DBHelper.create_scoped_session`:
`create_engine(...)` followed by `scoped_session(sessionmaker(...))` are external
collaborators, modeled as the record of parameters the code hands them. -/
structure Session where
  dsn : String
  pool_size : Int
  pool_pre_ping : Bool
  echo : Bool
  json_serializer : String
  json_deserializer : String
  executemany_mode : Option String
  autocommit : Bool
  autoflush : Bool
  expire_on_commit : Bool
deriving DecidableEq, Repr

/-- The state of a `DBHelper` instance (helper.py lines 30–33).  Both dataclass
fields are declared `field(init=False)` with no default, so a freshly constructed
instance carries neither attribute: `none` models "attribute does not exist". -/
structure DBHelper where
  sessions : Option (List (String × Session)) := none
  config : Option (List (String × DBConfig)) := none
deriving DecidableEq, Repr

/-- The attribute names defined on the `DBHelper` class body (its methods).
`DEFAULT_DB_NAME` is notably absent: it lives at module level (line 27). -/
def DBHelper.classAttributes : List String :=
  ["__getattribute__", "create_scoped_session", "setup", "shutdown",
   "session_scope", "get_status_info"]

/-- Whether `object.__getattribute__(self, name)` succeeds: the attribute exists on
the instance (a dataclass field that has been assigned) or on the class (a method). -/
def DBHelper.hasAttribute (h : DBHelper) (name : String) : Bool :=
  (name == "sessions" && h.sessions.isSome) ||
  (name == "config" && h.config.isSome) ||
  DBHelper.classAttributes.contains name

/-- Ordered-dict lookup `m[k]` (first — in a real dict, unique — matching key). -/
def lookupA {α : Type} (m : List (String × α)) (k : String) : Option α :=
  match m with
  | [] => none
  | (k2, v) :: rest => if k2 == k then some v else lookupA rest k

/-- Ordered-dict assignment `m[k] = v`: update in place, else append. -/
def setItem {α : Type} (m : List (String × α)) (k : String) (v : α) :
    List (String × α) :=
  match m with
  | [] => [(k, v)]
  | (k2, v2) :: rest => if k2 == k then (k, v) :: rest else (k2, v2) :: setItem rest k v

/-- `DBHelper.create_scoped_session` (helper.py lines 43–61): passes the config's
fields to `create_engine` and `sessionmaker`.  `config.executemany_mode or None`
turns the empty string into `None`. -/
def DBHelper.create_scoped_session (config : DBConfig) : Session :=
  { dsn := config.dsn
    pool_size := config.pool_size
    pool_pre_ping := config.pool_pre_ping
    echo := config.echo
    json_serializer := config.json_serializer
    json_deserializer := config.json_deserializer
    executemany_mode :=
      if config.executemany_mode == "" then none else some config.executemany_mode
    autocommit := config.auto_commit
    autoflush := config.auto_flush
    expire_on_commit := config.expire_on_commit }

/-- `DBHelper.create_scoped_session` run against the external engine: the first
thing lines 44–52 do is hand `config.dsn` to `create_engine`, which parses the URL
eagerly and raises its `ArgumentError` when the address cannot be parsed; on success
the bound session factory is the parameter record `create_scoped_session` describes.
The external engine's accept/reject behavior on addresses is the parameter
`engineParses`. -/
def DBHelper.create_scoped_session_run (engineParses : String → Bool)
    (config : DBConfig) : Except PyError Session :=
  if engineParses config.dsn then .ok (DBHelper.create_scoped_session config)
  else .error (.argumentError config.dsn)

/-- The argument of `setup`: `Union[DBConfig, Dict[str, DBConfig]]`. -/
inductive SetupArg where
  | single (config : DBConfig)
  | mapping (config : List (String × DBConfig))

/-- The `for db_name, cfg in config.items()` loop of `setup` (helper.py lines 69–70).
Each iteration executes `self.sessions[db_name] = self.create_scoped_session(cfg)`:
Python evaluates the right-hand side BEFORE the assignment target, so the engine
call (and its eager URL parse) happens first, and only then does the subscript
target read the `sessions` attribute — `AttributeError` when it has never been
assigned.  Returns the final value of the attribute and the exception, if any, that
aborted the loop. -/
def DBHelper.setupSessionsLoop (engineParses : String → Bool)
    (sessions : Option (List (String × Session)))
    (items : List (String × DBConfig)) :
    Option (List (String × Session)) × Option PyError :=
  match items with
  | [] => (sessions, none)
  | (db_name, cfg) :: rest =>
    match DBHelper.create_scoped_session_run engineParses cfg with
    | .error e => (sessions, some e)
    | .ok session =>
      match sessions with
      | none => (none, some (.attributeError "sessions"))
      | some m =>
        DBHelper.setupSessionsLoop engineParses (some (setItem m db_name session)) rest

/-- The mapping path of `setup` (helper.py lines 67–70): `self.config = config` is a
plain attribute assignment that always succeeds, and THEN the loop fills
`self.sessions`.  Returns the updated instance state and the exception, if any. -/
def DBHelper.setupMapping (engineParses : String → Bool) (self : DBHelper)
    (config : List (String × DBConfig)) : DBHelper × Option PyError :=
  let self2 : DBHelper := { self with config := some config }
  let r := DBHelper.setupSessionsLoop engineParses self2.sessions config
  ({ self2 with sessions := r.1 }, r.2)

/-- `DBHelper.setup` (helper.py lines 63–70), with the external engine's URL-parse
behavior explicit.  The single-config branch first evaluates `self.DEFAULT_DB_NAME`
(line 65): an attribute lookup on the instance and the class, neither of which
defines `DEFAULT_DB_NAME`, so it raises `AttributeError` before anything is
registered.  (Were the lookup to succeed, the config would be wrapped as
`{DEFAULT_DB_NAME: config}` and handled like a mapping.) -/
def DBHelper.setupWithEngine (engineParses : String → Bool) (self : DBHelper)
    (config : SetupArg) : DBHelper × Option PyError :=
  match config with
  | .single cfg =>
    if DBHelper.hasAttribute self "DEFAULT_DB_NAME" then
      DBHelper.setupMapping engineParses self [(DEFAULT_DB_NAME, cfg)]
    else
      (self, some (.attributeError "DEFAULT_DB_NAME"))
  | .mapping cfgs => DBHelper.setupMapping engineParses self cfgs

/-- `DBHelper.setup` under the spec's opaque-collaborator boundary (§1): the engine
is a given capability, so accepting the address is its successful default
(`fun _ => true`).  The claims that concern address errors use
`DBHelper.setupWithEngine` with the parse outcome explicit; the remaining setup
claims fail on steps independent of the engine (the `self.DEFAULT_DB_NAME` lookup,
and the `self.sessions` read that follows the engine call). -/
def DBHelper.setup (self : DBHelper) (config : SetupArg) : DBHelper × Option PyError :=
  DBHelper.setupWithEngine (fun _ => true) self config

/-- `DBHelper.shutdown` (helper.py lines 72–74): iterates `self.sessions.values()`
(reading the `sessions` attribute — `AttributeError` when unset) and calls
`session.remove()` on each; returns the trace of names whose session was removed. -/
def DBHelper.shutdown (self : DBHelper) : Except PyError (List String) :=
  match self.sessions with
  | none => .error (.attributeError "sessions")
  | some m => .ok (m.map (fun p => p.1))

/-- Outcome of the caller's body executed inside a `with session_scope(...)` block
(or around the value yielded by the `get_session` generator): it either completes
normally with a value or raises, the exception modeled by a description string. -/
inductive BodyOutcome (α : Type) where
  | normal (value : α)
  | raised (exc : String)
deriving DecidableEq, Repr

/-- `DBHelper.session_scope` (helper.py lines 76–82), run to completion around a
caller body.  Line 78 is `session = db.sessions[db_name]`: it reads the MODULE-LEVEL
singleton `db` (whose current state is the `dbState` argument), not the instance the
method was invoked on (`self` is unused by the body of the method).  The
`try: yield session / finally: session.close()` closes the yielded session on both
exit paths and re-raises the body's exception after the close.  The result pairs the
body's outcome with the number of times the scope closed the yielded session. -/
def DBHelper.session_scope {α : Type} (_self : DBHelper) (dbState : DBHelper)
    (db_name : String) (body : Session → BodyOutcome α) :
    Except PyError (BodyOutcome α × Nat) :=
  match dbState.sessions with
  | none => .error (.attributeError "sessions")
  | some m =>
    match lookupA m db_name with
    | none => .error (.keyError db_name)
    | some session =>
      match body session with
      | .normal value => .ok (.normal value, 1)
      | .raised exc => .ok (.raised exc, 1)

/-- The per-database status record `{"status": "OK"}` / `{"status": "FAILED"}`. -/
def statusRecord (status : Bool) : PyVal :=
  if status then .dict [("status", .str "OK")] else .dict [("status", .str "FAILED")]

/-- Result of `get_status_info` together with its side-effect traces:
`full_status_info` and `full_status` are the returned pair; `logged` records the
names for which `logger.exception(e)` ran; `closed` records the names whose session
the per-iteration `finally: session.close()` closed. -/
structure StatusResult where
  full_status_info : List (String × PyVal)
  full_status : Bool
  logged : List String
  closed : List String

/-- The `for db_name, session in self.sessions.items()` loop of `get_status_info`
(helper.py lines 88–99).  Each iteration independently tries
`session.execute("select version();")` (outcome given by the external `execOk`),
catches ANY exception, logs it, flips the per-iteration `status` and the running
`full_status`, always closes the session in `finally`, and stores
`({"status": ...}, status)` — a tuple, due to the trailing `, status` on line 99 —
under the database's name. -/
def DBHelper.statusLoop (items : List (String × Session)) (execOk : Session → Bool) :
    StatusResult :=
  match items with
  | [] => { full_status_info := [], full_status := true, logged := [], closed := [] }
  | (db_name, session) :: rest =>
    let status := execOk session
    let r := DBHelper.statusLoop rest execOk
    { full_status_info :=
        (db_name, PyVal.tuple [statusRecord status, PyVal.bool status]) :: r.full_status_info
      full_status := status && r.full_status
      logged := (if status then [] else [db_name]) ++ r.logged
      closed := db_name :: r.closed }

/-- `DBHelper.get_status_info` (helper.py lines 84–101): reads `self.sessions`
(`AttributeError` when unset) and folds the probe loop over its entries. -/
def DBHelper.get_status_info (self : DBHelper) (execOk : Session → Bool) :
    Except PyError StatusResult :=
  match self.sessions with
  | none => .error (.attributeError "sessions")
  | some m => .ok (DBHelper.statusLoop m execOk)

/-- The module-level singleton `db = DBHelper()` (helper.py line 104) in its initial
state: freshly constructed, neither `sessions` nor `config` assigned. -/
def db : DBHelper := {}

/-- Module-level `get_session` (helper.py lines 107–112), run to completion around a
caller body: `session = db.sessions[db_name]`, then
`try: yield session / finally: session.close()` — textually the same lookup and
scoping as `DBHelper.session_scope`. -/
def get_session {α : Type} (dbState : DBHelper) (db_name : String)
    (body : Session → BodyOutcome α) : Except PyError (BodyOutcome α × Nat) :=
  match dbState.sessions with
  | none => .error (.attributeError "sessions")
  | some m =>
    match lookupA m db_name with
    | none => .error (.keyError db_name)
    | some session =>
      match body session with
      | .normal value => .ok (.normal value, 1)
      | .raised exc => .ok (.raised exc, 1)

/-- Modelled from the spec: the `ConfigError` exception described in §4.1/§7 for an
address string that "cannot be parsed into a valid connection locator".  No such
class exists anywhere in the source. -/
inductive ConfigError where
  | unparsableAddress (addr : String)
deriving DecidableEq, Repr

/-- Modelled from the spec: ConnectionConfig construction as §4.1 describes it —
"Construction fails with a `ConfigError` if the address string cannot be parsed into
a valid connection locator" — parameterized by a parseability predicate on addresses.
To be compared with the source's `DBConfig.construct`, which never fails. -/
def DBConfig.constructSpec (parses : String → Bool) (dsn : String) :
    Except ConfigError DBConfig :=
  if parses dsn then .ok { dsn := dsn } else .error (.unparsableAddress dsn)

/-- A three-database session map, as `setup` would build it were `sessions` ever
initialized: a concrete registry state for the health and session claims. -/
def exampleSessions : List (String × Session) :=
  [("db1", DBHelper.create_scoped_session (DBConfig.construct "postgresql://h/db1")),
   ("db2", DBHelper.create_scoped_session (DBConfig.construct "postgresql://h/db2")),
   ("db3", DBHelper.create_scoped_session (DBConfig.construct "postgresql://h/db3"))]

/-- A `DBHelper` whose `sessions` attribute holds `exampleSessions`. -/
def exampleHelper : DBHelper := { sessions := some exampleSessions }

/-- A concrete probe outcome: `session.execute("select version();")` raises exactly
on the session bound to `db2`. -/
def exampleProbe : Session → Bool := fun s => !(s.dsn == "postgresql://h/db2")

/-- A concrete parseability predicate on addresses, for comparing the spec-modelled
ConnectionConfig construction with the source's. -/
def exampleParses : String → Bool := fun s => s.toList.take 13 == "postgresql://".toList

theorem statusLoop_info (items : List (String × Session)) (execOk : Session → Bool) :
    (DBHelper.statusLoop items execOk).full_status_info =
      items.map (fun p =>
        (p.1, PyVal.tuple [statusRecord (execOk p.2), PyVal.bool (execOk p.2)])) := by
  induction items with
  | nil => rfl
  | cons p rest ih =>
    obtain ⟨n, s⟩ := p
    simp [DBHelper.statusLoop, ih]

theorem statusLoop_full (items : List (String × Session)) (execOk : Session → Bool) :
    (DBHelper.statusLoop items execOk).full_status = items.all (fun p => execOk p.2) := by
  induction items with
  | nil => rfl
  | cons p rest ih =>
    obtain ⟨n, s⟩ := p
    simp [DBHelper.statusLoop, ih]

theorem statusLoop_logged (items : List (String × Session)) (execOk : Session → Bool) :
    (DBHelper.statusLoop items execOk).logged =
      (items.filter (fun p => !execOk p.2)).map Prod.fst := by
  induction items with
  | nil => rfl
  | cons p rest ih =>
    obtain ⟨n, s⟩ := p
    cases h : execOk s <;> simp [DBHelper.statusLoop, ih, h, List.filter]

theorem statusLoop_closed (items : List (String × Session)) (execOk : Session → Bool) :
    (DBHelper.statusLoop items execOk).closed = items.map Prod.fst := by
  induction items with
  | nil => rfl
  | cons p rest ih =>
    obtain ⟨n, s⟩ := p
    simp [DBHelper.statusLoop, ih]

/-- C1: passing a bare `DBConfig` to `setup` does NOT register it under `"default"`:
line 65 reads `self.DEFAULT_DB_NAME`, an attribute that neither the instance nor the
`DBHelper` class defines (the constant lives at module level), so for every instance
state and every config the call raises `AttributeError("DEFAULT_DB_NAME")` and
leaves the instance unchanged — nothing is registered under any name, and a
subsequent `session_scope()` cannot reach the database. -/
theorem C1_setup_single_raises_attribute_error (self : DBHelper) (cfg : DBConfig) :
    DBHelper.setup self (.single cfg) =
      (self, some (.attributeError "DEFAULT_DB_NAME")) := rfl

/-- C2: on the freshly constructed helper (the singleton `db`: neither `sessions`
nor `config` ever assigned), `setup` with any non-empty name-to-config mapping first
sets the `config` attribute to the full supplied mapping and then raises
`AttributeError` when the first loop iteration reads the never-initialized
`sessions` attribute, so no name receives a session factory. -/
theorem C2_setup_nonempty_mapping_raises (name : String) (cfg : DBConfig)
    (rest : List (String × DBConfig)) :
    DBHelper.setup db (.mapping ((name, cfg) :: rest)) =
      ({ sessions := none, config := some ((name, cfg) :: rest) },
       some (.attributeError "sessions")) := rfl

/-- C3 counterexample: with three registered databases of which exactly `db2`'s
probe raises, the aggregate boolean is `false` as claimed, but the first component
does NOT map each name to the bare status record: the trailing `, status` on line 99
makes every stored value the tuple `({"status": ...}, status)`. -/
theorem C3_counterexample :
    DBHelper.get_status_info exampleHelper exampleProbe =
      .ok { full_status_info :=
              [("db1", PyVal.tuple [PyVal.dict [("status", PyVal.str "OK")], PyVal.bool true]),
               ("db2", PyVal.tuple [PyVal.dict [("status", PyVal.str "FAILED")], PyVal.bool false]),
               ("db3", PyVal.tuple [PyVal.dict [("status", PyVal.str "OK")], PyVal.bool true])],
            full_status := false,
            logged := ["db2"],
            closed := ["db1", "db2", "db3"] } ∧
    PyVal.tuple [PyVal.dict [("status", PyVal.str "FAILED")], PyVal.bool false] ≠
      PyVal.dict [("status", PyVal.str "FAILED")] :=
  ⟨rfl, fun h => PyVal.noConfusion h⟩

/-- C3 amended: `get_status_info`, on a registry whose `sessions` attribute holds any
map, returns for each registered name (in registration order) the PAIR of the status
record and the per-database boolean — record `OK` and boolean `true` exactly when
that probe succeeded — and an aggregate boolean that is true iff every registered
database's probe succeeded. -/
theorem C3_amended_status_pairs (items : List (String × Session))
    (execOk : Session → Bool) (cfgs : Option (List (String × DBConfig))) :
    DBHelper.get_status_info { sessions := some items, config := cfgs } execOk =
      .ok (DBHelper.statusLoop items execOk) ∧
    (DBHelper.statusLoop items execOk).full_status_info =
      items.map (fun p =>
        (p.1, PyVal.tuple [statusRecord (execOk p.2), PyVal.bool (execOk p.2)])) ∧
    (DBHelper.statusLoop items execOk).full_status = items.all (fun p => execOk p.2) :=
  ⟨rfl, statusLoop_info items execOk, statusLoop_full items execOk⟩

/-- C4 counterexample: on the freshly constructed singleton `db` (before any setup),
`session_scope`, `get_session`, `get_status_info` and `shutdown` all fail with the
builtin generic attribute-missing error `AttributeError("sessions")` — not with a
typed `NotConfiguredError`, no such class existing anywhere in the source. -/
theorem C4_counterexample :
    DBHelper.session_scope db db DEFAULT_DB_NAME (fun s => BodyOutcome.normal s) =
      .error (.attributeError "sessions") ∧
    get_session db DEFAULT_DB_NAME (fun s => BodyOutcome.normal s) =
      .error (.attributeError "sessions") ∧
    DBHelper.get_status_info db (fun _ => true) = .error (.attributeError "sessions") ∧
    DBHelper.shutdown db = .error (.attributeError "sessions") :=
  ⟨rfl, rfl, rfl, rfl⟩

/-- C4 amended: whenever the singleton's `sessions` attribute has never been
assigned (no setup has reached the session-registration loop), each of
`session_scope`, `get_session`, `get_status_info` and `shutdown` raises the builtin
`AttributeError("sessions")`, re-raised unchanged by `__getattribute__` after it
prints its hint; the source defines no `NotConfiguredError`. -/
theorem C4_amended_attribute_error {α : Type} (g : DBHelper) (db_name : String)
    (body : Session → BodyOutcome α) (execOk : Session → Bool)
    (h : g.sessions = none) :
    DBHelper.session_scope g g db_name body = .error (.attributeError "sessions") ∧
    get_session g db_name body = .error (.attributeError "sessions") ∧
    DBHelper.get_status_info g execOk = .error (.attributeError "sessions") ∧
    DBHelper.shutdown g = .error (.attributeError "sessions") := by
  simp [DBHelper.session_scope, get_session, DBHelper.get_status_info,
    DBHelper.shutdown, h]

/-- Witness for C4 amended, at the initial singleton state. -/
theorem C4_amended_witness :
    db.sessions = none ∧
    (DBHelper.session_scope db db "default" (fun s => BodyOutcome.normal s.dsn) =
        .error (.attributeError "sessions") ∧
     get_session db "default" (fun s => BodyOutcome.normal s.dsn) =
        .error (.attributeError "sessions") ∧
     DBHelper.get_status_info db (fun _ => false) = .error (.attributeError "sessions") ∧
     DBHelper.shutdown db = .error (.attributeError "sessions")) :=
  ⟨rfl, C4_amended_attribute_error db "default" (fun s => BodyOutcome.normal s.dsn)
    (fun _ => false) rfl⟩

/-- C5 counterexample: in the three-database registry state, asking for the
unregistered name `"analytics"` makes both `session_scope` and `get_session` raise
the builtin `KeyError("analytics")` from the dict lookup `db.sessions[db_name]` —
not an `UnknownDatabaseError`, no such class existing anywhere in the source. -/
theorem C5_counterexample :
    DBHelper.session_scope db exampleHelper "analytics" (fun s => BodyOutcome.normal s) =
      .error (.keyError "analytics") ∧
    get_session exampleHelper "analytics" (fun s => BodyOutcome.normal s) =
      .error (.keyError "analytics") :=
  ⟨rfl, rfl⟩

/-- C5 amended: for every logical name not present in the current `sessions` map,
`session_scope` (invoked on any instance) and the module-level `get_session` raise
`KeyError(name)` immediately. -/
theorem C5_amended_keyerror {α : Type} (self g : DBHelper)
    (m : List (String × Session)) (n : String) (body : Session → BodyOutcome α)
    (h1 : g.sessions = some m) (h2 : lookupA m n = none) :
    DBHelper.session_scope self g n body = .error (.keyError n) ∧
    get_session g n body = .error (.keyError n) := by
  simp [DBHelper.session_scope, get_session, h1, h2]

/-- Witness for C5 amended, at the unregistered name `"events"`. -/
theorem C5_amended_witness :
    (exampleHelper.sessions = some exampleSessions ∧
     lookupA exampleSessions "events" = none) ∧
    DBHelper.session_scope db exampleHelper "events" (fun s => BodyOutcome.normal s.dsn) =
      .error (.keyError "events") ∧
    get_session exampleHelper "events" (fun s => BodyOutcome.normal s.dsn) =
      .error (.keyError "events") :=
  ⟨⟨rfl, rfl⟩, C5_amended_keyerror db exampleHelper exampleSessions "events"
    (fun s => BodyOutcome.normal s.dsn) rfl rfl⟩

/-- C6: for a registered name, `session_scope` (and `get_session`, which has the same
lookup and the same `try/finally`) closes the yielded session exactly once on both
exit paths: a normally-completing body's value comes back with close count 1, and a
raising body's exception propagates to the caller, also with close count 1. -/
theorem C6_close_exactly_once {α : Type} (self g : DBHelper)
    (m : List (String × Session)) (n : String) (s : Session)
    (body : Session → BodyOutcome α)
    (h1 : g.sessions = some m) (h2 : lookupA m n = some s) :
    DBHelper.session_scope self g n body = .ok (body s, 1) ∧
    get_session g n body = .ok (body s, 1) := by
  cases hb : body s <;>
    simp [DBHelper.session_scope, get_session, h1, h2, hb]

/-- Witness for C6: in the three-database registry, a raising body and a
normally-completing body each see exactly one close, and the raised exception
propagates. -/
theorem C6_witness :
    DBHelper.session_scope db exampleHelper "db1"
      (fun _ => (BodyOutcome.raised "boom" : BodyOutcome String)) =
      .ok (BodyOutcome.raised "boom", 1) ∧
    get_session exampleHelper "db1" (fun s => BodyOutcome.normal s.dsn) =
      .ok (BodyOutcome.normal "postgresql://h/db1", 1) :=
  ⟨(C6_close_exactly_once db exampleHelper exampleSessions "db1"
      (DBHelper.create_scoped_session (DBConfig.construct "postgresql://h/db1"))
      (fun _ => (BodyOutcome.raised "boom" : BodyOutcome String)) rfl rfl).1,
   (C6_close_exactly_once db exampleHelper exampleSessions "db1"
      (DBHelper.create_scoped_session (DBConfig.construct "postgresql://h/db1"))
      (fun s => BodyOutcome.normal s.dsn) rfl rfl).2⟩

/-- C7: a probe failure is contained in its own iteration: `get_status_info` on a
populated registry returns normally (no probe error propagates to its caller), an
entry is produced for EVERY registered name in registration order, exactly the
failing databases are logged, every probed session is closed, and each entry carries
the FAILED record when its probe raised and the OK record otherwise. -/
theorem C7_probe_failure_contained (items : List (String × Session))
    (execOk : Session → Bool) (cfgs : Option (List (String × DBConfig))) :
    DBHelper.get_status_info { sessions := some items, config := cfgs } execOk =
      .ok (DBHelper.statusLoop items execOk) ∧
    (DBHelper.statusLoop items execOk).full_status_info.map Prod.fst =
      items.map Prod.fst ∧
    (DBHelper.statusLoop items execOk).logged =
      (items.filter (fun p => !execOk p.2)).map Prod.fst ∧
    (DBHelper.statusLoop items execOk).closed = items.map Prod.fst ∧
    (DBHelper.statusLoop items execOk).full_status_info =
      items.map (fun p =>
        (p.1, PyVal.tuple [statusRecord (execOk p.2), PyVal.bool (execOk p.2)])) := by
  refine ⟨rfl, ?_, statusLoop_logged items execOk, statusLoop_closed items execOk,
    statusLoop_info items execOk⟩
  rw [statusLoop_info]
  simp

/-- C8 counterexample: for the concrete unparsable address
`"not a connection locator"` (rejected by the concrete parseability predicate), the
spec-modelled construction fails with a `ConfigError`, but the source's `DBConfig`
construction succeeds and stores the malformed address unchanged: the dataclass
performs no validation, and no `ConfigError` exists in the source. -/
theorem C8_counterexample :
    DBConfig.constructSpec exampleParses "not a connection locator" =
      .error (.unparsableAddress "not a connection locator") ∧
    DBConfig.construct "not a connection locator" =
      { dsn := "not a connection locator" } :=
  ⟨rfl, rfl⟩

/-- C8 amended: `DBConfig` construction never fails and performs no address
validation — for every address string it returns the config carrying that dsn with
default tuning, and no `ConfigError` type exists in the source.  An unparsable
address surfaces instead inside `setup`: line 70 evaluates
`create_scoped_session(cfg)` before the assignment target reads `self.sessions`, so
the external `create_engine` parses the URL first and its `ArgumentError` aborts
that `setup` call synchronously — an engine error, not a library `ConfigError` —
while for an address the engine accepts, `setup` goes on to fail on the
uninitialized `sessions` attribute. -/
theorem C8_amended_engine_argument_error (dsn : String) (engineParses : String → Bool) :
    DBConfig.construct dsn = { dsn := dsn } ∧
    (engineParses dsn = false →
      DBHelper.setupWithEngine engineParses db
          (.mapping [("default", DBConfig.construct dsn)]) =
        ({ sessions := none, config := some [("default", DBConfig.construct dsn)] },
         some (.argumentError dsn))) ∧
    (engineParses dsn = true →
      DBHelper.setupWithEngine engineParses db
          (.mapping [("default", DBConfig.construct dsn)]) =
        ({ sessions := none, config := some [("default", DBConfig.construct dsn)] },
         some (.attributeError "sessions"))) := by
  refine ⟨rfl, fun h => ?_, fun h => ?_⟩ <;>
    simp [DBHelper.setupWithEngine, DBHelper.setupMapping, DBHelper.setupSessionsLoop,
      DBHelper.create_scoped_session_run, DBConfig.construct, db, h]

/-- Witness for C8 amended: the concrete unparsable address is rejected by the
concrete engine-parse predicate and aborts `setup` with the engine's
`ArgumentError`, while a parsable address reaches the `AttributeError` on the
uninitialized `sessions`. -/
theorem C8_amended_witness :
    (exampleParses "not a connection locator" = false ∧
     DBHelper.setupWithEngine exampleParses db
         (.mapping [("default", DBConfig.construct "not a connection locator")]) =
       ({ sessions := none,
          config := some [("default", DBConfig.construct "not a connection locator")] },
        some (.argumentError "not a connection locator"))) ∧
    (exampleParses "postgresql://h/app" = true ∧
     DBHelper.setupWithEngine exampleParses db
         (.mapping [("default", DBConfig.construct "postgresql://h/app")]) =
       ({ sessions := none,
          config := some [("default", DBConfig.construct "postgresql://h/app")] },
        some (.attributeError "sessions"))) :=
  ⟨⟨rfl, (C8_amended_engine_argument_error "not a connection locator" exampleParses).2.1 rfl⟩,
   ⟨rfl, (C8_amended_engine_argument_error "postgresql://h/app" exampleParses).2.2 rfl⟩⟩

/-- C9: the both-maps-or-neither invariant is violated at a reachable state: the very
first `setup` on the fresh singleton leaves the `config` attribute holding the
supplied name while the `sessions` attribute still does not exist (setup never
initializes it), so `"main"` is present in the config map and has no session
factory. -/
theorem C9_invariant_violated :
    DBHelper.setup db (.mapping [("main", DBConfig.construct "postgresql://h/main")]) =
      ({ sessions := none,
         config := some [("main", DBConfig.construct "postgresql://h/main")] },
       some (.attributeError "sessions")) ∧
    lookupA [("main", DBConfig.construct "postgresql://h/main")] "main" =
      some (DBConfig.construct "postgresql://h/main") :=
  ⟨rfl, rfl⟩

/-- C10: `session_scope` reads the module singleton's state, not the instance it was
invoked on: its result is the same for every two instance states, it coincides with
the module-level `get_session` on the same singleton state, and the session it
yields is exactly `db.sessions[db_name]`. -/
theorem C10_session_scope_uses_singleton {α : Type} (self other g : DBHelper)
    (m : List (String × Session)) (n : String) (s : Session)
    (body : Session → BodyOutcome α)
    (h1 : g.sessions = some m) (h2 : lookupA m n = some s) :
    DBHelper.session_scope self g n body = get_session g n body ∧
    DBHelper.session_scope self g n body = DBHelper.session_scope other g n body ∧
    DBHelper.session_scope self g n (fun t => BodyOutcome.normal t) =
      .ok (.normal s, 1) := by
  refine ⟨rfl, rfl, ?_⟩
  simp [DBHelper.session_scope, h1, h2]

/-- Witness for C10, in the three-database registry at name `"db3"`. -/
theorem C10_witness :
    DBHelper.session_scope db exampleHelper "db3" (fun t => BodyOutcome.normal t) =
      get_session exampleHelper "db3" (fun t => BodyOutcome.normal t) ∧
    DBHelper.session_scope db exampleHelper "db3" (fun t => BodyOutcome.normal t) =
      .ok (.normal (DBHelper.create_scoped_session
        (DBConfig.construct "postgresql://h/db3")), 1) := by
  have h := C10_session_scope_uses_singleton db exampleHelper exampleHelper
    exampleSessions "db3"
    (DBHelper.create_scoped_session (DBConfig.construct "postgresql://h/db3"))
    (fun t => BodyOutcome.normal t) rfl rfl
  exact ⟨h.1, h.2.2⟩
